import Mathlib

/-!
Verification of the mecanum-drive plugin
(`src/neo_gazebo_plugins/ros/src/mecanum_drive_plugin.cpp`).

The plugin's arithmetic is done on C doubles; here it is embedded as exact
arithmetic — rationals for the kinematics and configuration loading, reals
for the odometry integration (which uses `cos`, `sin` and `π`).
-/

/-- The four wheels, matching the enum `{FRONT_RIGHT, FRONT_LEFT, BACK_RIGHT,
BACK_LEFT}` of the source (lines 54-57). -/
inductive Wheel
  | frontRight
  | frontLeft
  | backRight
  | backLeft
deriving DecidableEq, Repr

/-- Robot geometry constants, as loaded by `LoadChild`: `robotLength`,
`robotWidth`, `wheelDiamP`, `torqueP` (lines 82-85, 123-126). -/
structure Geom where
  robotLength : ℚ
  robotWidth : ℚ
  wheelDiam : ℚ
  torque : ℚ
deriving DecidableEq, Repr

/-- The local `l_total = rl + rw` of `GetPositionCmd` (line 291). -/
def l_total (g : Geom) : ℚ :=
  g.robotLength + g.robotWidth

/-- The wheel-speed computation of `MecanumDrivePlugin::GetPositionCmd`
(lines 303-306): each wheel's commanded angular velocity from the body
command `(vx, vy, va)` read out of the shared fields `x_`, `y_`, `rot_`.

    wheelSpeed[FRONT_LEFT]  = (vx + vy - l_total * va) * 2 / wd;
    wheelSpeed[FRONT_RIGHT] = (vx - vy + l_total * va) * 2 / wd;
    wheelSpeed[BACK_LEFT]   = (vx - vy - l_total * va) * 2 / wd;
    wheelSpeed[BACK_RIGHT]  = (vx + vy + l_total * va) * 2 / wd; -/
def GetPositionCmd (g : Geom) (vx vy va : ℚ) : Wheel → ℚ
  | .frontLeft => (vx + vy - l_total g * va) * 2 / g.wheelDiam
  | .frontRight => (vx - vy + l_total g * va) * 2 / g.wheelDiam
  | .backLeft => (vx - vy - l_total g * va) * 2 / g.wheelDiam
  | .backRight => (vx + vy + l_total g * va) * 2 / g.wheelDiam

/-- The forward-kinematics block of `MecanumDrivePlugin::UpdateChild`
(lines 232-239): per-wheel surface speeds `d1..d4 = wd/2 * GetVelocity`,
then

    vx = (d1 + d2 + d3 + d4) / 4;
    vy = (d1 - d2 - d3 + d4) / 4;
    va = 1 / (rl + rw) * (-d1 + d2 - d3 + d4) / 4;

where `d1` is front-left, `d2` front-right, `d3` back-left, `d4` back-right. -/
def forwardKinematics (g : Geom) (jointVel : Wheel → ℚ) : ℚ × ℚ × ℚ :=
  let d1 := g.wheelDiam / 2 * jointVel .frontLeft
  let d2 := g.wheelDiam / 2 * jointVel .frontRight
  let d3 := g.wheelDiam / 2 * jointVel .backLeft
  let d4 := g.wheelDiam / 2 * jointVel .backRight
  ((d1 + d2 + d3 + d4) / 4,
   (d1 - d2 - d3 + d4) / 4,
   1 / (g.robotLength + g.robotWidth) * (-d1 + d2 - d3 + d4) / 4)

/-- C1: the inverse kinematics computes each wheel's angular velocity as
`(vx ± vy ± L·omega) * 2 / wheelDiameter` with `L = length + width` and the
exact sign pattern (front-left `+vy, −L·omega`; front-right `−vy, +L·omega`;
back-left `−vy, −L·omega`; back-right `+vy, +L·omega`; all wheels `+vx`);
in particular, whenever `wheelDiameter ≠ 0`, the command `(1, 0, 0)` gives
all four wheels the speed `2 / wheelDiameter`. -/
theorem C1_inverse_kinematics (g : Geom) (vx vy va : ℚ) :
    (GetPositionCmd g vx vy va .frontLeft
        = (vx + vy - (g.robotLength + g.robotWidth) * va) * 2 / g.wheelDiam
      ∧ GetPositionCmd g vx vy va .frontRight
        = (vx - vy + (g.robotLength + g.robotWidth) * va) * 2 / g.wheelDiam
      ∧ GetPositionCmd g vx vy va .backLeft
        = (vx - vy - (g.robotLength + g.robotWidth) * va) * 2 / g.wheelDiam
      ∧ GetPositionCmd g vx vy va .backRight
        = (vx + vy + (g.robotLength + g.robotWidth) * va) * 2 / g.wheelDiam)
    ∧ (g.wheelDiam ≠ 0 → ∀ w : Wheel, GetPositionCmd g 1 0 0 w = 2 / g.wheelDiam) := by
  refine ⟨⟨rfl, rfl, rfl, rfl⟩, fun _ w => ?_⟩
  cases w <;> simp [GetPositionCmd, l_total]

/-- Witness for C1 at the concrete geometry `⟨2, 3, 5, 10⟩` and the pure
forward command `(1, 0, 0)`. -/
theorem C1_inverse_kinematics_witness :
    (Geom.mk 2 3 5 10).wheelDiam ≠ 0
      ∧ GetPositionCmd (Geom.mk 2 3 5 10) 1 0 0 Wheel.frontLeft = 2 / 5 :=
  ⟨by decide, (C1_inverse_kinematics (Geom.mk 2 3 5 10) 1 0 0).2 (by decide) Wheel.frontLeft⟩

/-- C2: the forward kinematics converts each wheel's angular velocity to a
surface speed `d_i = (wheelDiameter/2) * jointVel_i` and yields
`vx = (d_fl + d_fr + d_bl + d_br)/4`, `vy = (d_fl − d_fr − d_bl + d_br)/4`,
`omega = (1/L) * (−d_fl + d_fr − d_bl + d_br)/4` with `L = length + width`. -/
theorem C2_forward_kinematics (g : Geom) (jointVel : Wheel → ℚ) :
    (forwardKinematics g jointVel).1
      = (g.wheelDiam / 2 * jointVel .frontLeft + g.wheelDiam / 2 * jointVel .frontRight
          + g.wheelDiam / 2 * jointVel .backLeft + g.wheelDiam / 2 * jointVel .backRight) / 4
    ∧ (forwardKinematics g jointVel).2.1
      = (g.wheelDiam / 2 * jointVel .frontLeft - g.wheelDiam / 2 * jointVel .frontRight
          - g.wheelDiam / 2 * jointVel .backLeft + g.wheelDiam / 2 * jointVel .backRight) / 4
    ∧ (forwardKinematics g jointVel).2.2
      = 1 / (g.robotLength + g.robotWidth)
          * (-(g.wheelDiam / 2 * jointVel .frontLeft) + g.wheelDiam / 2 * jointVel .frontRight
              - g.wheelDiam / 2 * jointVel .backLeft + g.wheelDiam / 2 * jointVel .backRight) / 4 := by
  refine ⟨rfl, rfl, rfl⟩

/-- C3: for every command and every geometry with `wheelDiameter ≠ 0` and
`length + width ≠ 0`, feeding the wheel speeds produced by the inverse
kinematics into the forward kinematics reproduces the command exactly. -/
theorem C3_roundtrip (g : Geom) (vx vy va : ℚ)
    (hw : g.wheelDiam ≠ 0) (hL : l_total g ≠ 0) :
    forwardKinematics g (GetPositionCmd g vx vy va) = (vx, vy, va) := by
  unfold l_total at hL
  simp only [forwardKinematics, GetPositionCmd, l_total, Prod.mk.injEq]
  refine ⟨?_, ?_, ?_⟩ <;> field_simp <;> ring

/-- Witness for C3 at the geometry `⟨2, 3, 5, 10⟩` (so `L = 5`, diameter `5`)
and the command `(1, −2, 3)`, which has zero-free negative components. -/
theorem C3_roundtrip_witness :
    ((Geom.mk 2 3 5 10).wheelDiam ≠ 0 ∧ l_total (Geom.mk 2 3 5 10) ≠ 0)
      ∧ forwardKinematics (Geom.mk 2 3 5 10) (GetPositionCmd (Geom.mk 2 3 5 10) 1 (-2) 3)
          = (1, -2, 3) :=
  ⟨⟨by norm_num, by norm_num [l_total]⟩,
    C3_roundtrip (Geom.mk 2 3 5 10) 1 (-2) 3 (by norm_num) (by norm_num [l_total])⟩

/-- The shared command fields `x_`, `y_`, `rot_` guarded by `lock`
(the single-slot command buffer). `cmdVelCallback` and `GetPositionCmd`
each take the lock for the whole copy-in/copy-out, so the two critical
sections are serialized and each acts atomically on this state. -/
structure CmdState where
  x_ : ℚ
  y_ : ℚ
  rot_ : ℚ
deriving DecidableEq, Repr

/-- An inbound `geometry_msgs::Twist` message: the three fields the
callback reads (`linear.x`, `linear.y`, `angular.z`). -/
structure TwistMsg where
  linearX : ℚ
  linearY : ℚ
  angularZ : ℚ
deriving DecidableEq, Repr

/-- The body of `MecanumDrivePlugin::cmdVelCallback` (lines 316-322): under
the lock, overwrite all three shared fields from the message. -/
def cmdVelCallback (_s : CmdState) (m : TwistMsg) : CmdState :=
  { x_ := m.linearX, y_ := m.linearY, rot_ := m.angularZ }

/-- The command read-out of `MecanumDrivePlugin::GetPositionCmd`
(lines 293-295): under the same lock, copy `vx = x_`, `vy = y_`,
`va = rot_`. -/
def readLatestCmd (s : CmdState) : ℚ × ℚ × ℚ :=
  (s.x_, s.y_, s.rot_)

/-- C7: the command buffer is last-write-wins — after writing command `A`
and then command `B`, a read returns exactly `B` in all three fields, never
a mixture of `A` and `B`. (The mutex held across each whole copy makes the
write and the read atomic, which is what the sequential composition here
models.) -/
theorem C7_last_write_wins (s : CmdState) (A B : TwistMsg) :
    readLatestCmd (cmdVelCallback (cmdVelCallback s A) B)
      = (B.linearX, B.linearY, B.angularZ) := rfl

/-- The odometry state of the plugin: the accumulated pose `odomPose[0..2]`
(x, y, yaw) and the instantaneous velocity `odomVel[0..2]`, both reset to
zero in `InitChild`/`ResetChild`. -/
structure OdomState where
  poseX : ℝ
  poseY : ℝ
  poseYaw : ℝ
  velX : ℝ
  velY : ℝ
  velYaw : ℝ

/-- The odometry-integration block of `MecanumDrivePlugin::UpdateChild`
(lines 242-249), with `(vx, vy, va)` the body velocity from the forward
kinematics and `dt` the elapsed simulated step time:

    odomPose[0] += (vx * cos(odomPose[2]) - vy * sin(odomPose[2])) * stepTime;
    odomPose[1] += (vx * sin(odomPose[2]) + vy * cos(odomPose[2])) * stepTime;
    odomPose[2] += va * stepTime;
    odomVel = (vx, vy, va);

Note the stored yaw `odomPose[2]` is incremented with no normalization. -/
noncomputable def advanceOdom (s : OdomState) (vx vy va dt : ℝ) : OdomState :=
  { poseX := s.poseX + (vx * Real.cos s.poseYaw - vy * Real.sin s.poseYaw) * dt
    poseY := s.poseY + (vx * Real.sin s.poseYaw + vy * Real.cos s.poseYaw) * dt
    poseYaw := s.poseYaw + va * dt
    velX := vx
    velY := vy
    velYaw := va }

/-- Modelled from the spec: the `NORMALIZE` macro applied at line 399 of
`write_position_data` comes from the simulator's own headers
(`gazebo/Global.hh`), which are not part of this repository; per the spec it
wraps an angle into `(−π, π]`. The unique integer multiple of `2π` whose
subtraction lands in that interval is `⌈a/(2π) − 1/2⌉`. -/
noncomputable def NORMALIZE (a : ℝ) : ℝ :=
  a - 2 * Real.pi * ⌈a / (2 * Real.pi) - 1 / 2⌉

/-- The simulator-facing record filled by
`MecanumDrivePlugin::write_position_data` (lines 392-408): pose x and y are
copied as-is, the yaw is passed through `NORMALIZE`, the velocity is copied,
and `stall` is set to 0. -/
structure PosIfaceData where
  posX : ℝ
  posY : ℝ
  yaw : ℝ
  velX : ℝ
  velY : ℝ
  velYaw : ℝ
  stall : ℕ

/-- The body of `MecanumDrivePlugin::write_position_data` (lines 392-408). -/
noncomputable def write_position_data (s : OdomState) : PosIfaceData :=
  { posX := s.poseX
    posY := s.poseY
    yaw := NORMALIZE s.poseYaw
    velX := s.velX
    velY := s.velY
    velYaw := s.velYaw
    stall := 0 }

/-- `NORMALIZE` really lands in `(−π, π]` for every input angle. -/
theorem NORMALIZE_mem_Ioc (a : ℝ) :
    NORMALIZE a ∈ Set.Ioc (-Real.pi) Real.pi := by
  have hpi : (0 : ℝ) < Real.pi := Real.pi_pos
  have h2pi : (0 : ℝ) < 2 * Real.pi := by linarith
  have hne : (2 : ℝ) * Real.pi ≠ 0 := ne_of_gt h2pi
  have h1 : a / (2 * Real.pi) - 1 / 2 ≤ (⌈a / (2 * Real.pi) - 1 / 2⌉ : ℝ) :=
    Int.le_ceil _
  have h2 : (⌈a / (2 * Real.pi) - 1 / 2⌉ : ℝ) < a / (2 * Real.pi) - 1 / 2 + 1 :=
    Int.ceil_lt_add_one _
  have e1 : a / (2 * Real.pi) * (2 * Real.pi) = a := div_mul_cancel₀ a hne
  constructor
  · have u2 : (⌈a / (2 * Real.pi) - 1 / 2⌉ : ℝ) * (2 * Real.pi)
        < (a / (2 * Real.pi) - 1 / 2 + 1) * (2 * Real.pi) :=
      mul_lt_mul_of_pos_right h2 h2pi
    rw [add_mul, sub_mul, e1, one_mul] at u2
    unfold NORMALIZE
    nlinarith [u2]
  · have u1 : (a / (2 * Real.pi) - 1 / 2) * (2 * Real.pi)
        ≤ (⌈a / (2 * Real.pi) - 1 / 2⌉ : ℝ) * (2 * Real.pi) :=
      mul_le_mul_of_nonneg_right h1 (le_of_lt h2pi)
    rw [sub_mul, e1] at u1
    unfold NORMALIZE
    nlinarith [u1]

/-- C4 counterexample: the stored heading is NOT kept in `(−π, π]`. From the
zero state, one update step with `omega = 4` and `dt = 1` leaves the stored
`odomPose[2]` equal to `4`, which lies outside `(−π, π]` (since `π < 4`). -/
theorem C4_theta_not_normalized_counterexample :
    (advanceOdom (OdomState.mk 0 0 0 0 0 0) 0 0 4 1).poseYaw
      ∉ Set.Ioc (-Real.pi) Real.pi := by
  have h : (advanceOdom (OdomState.mk 0 0 0 0 0 0) 0 0 4 1).poseYaw = 4 := by
    simp [advanceOdom]
  rw [h]
  intro hmem
  have h4 : Real.pi < 4 := Real.pi_lt_four
  exact absurd hmem.2 (by linarith)

/-- C4 amended: after every update step the stored heading equals
`theta + omega * dt` with no normalization, and the normalization into
`(−π, π]` is applied only to the yaw written out to the position interface
by `write_position_data`. -/
theorem C4_theta_unnormalized_amended (s : OdomState) (vx vy va dt : ℝ) :
    (advanceOdom s vx vy va dt).poseYaw = s.poseYaw + va * dt
      ∧ (write_position_data (advanceOdom s vx vy va dt)).yaw
          ∈ Set.Ioc (-Real.pi) Real.pi :=
  ⟨rfl, NORMALIZE_mem_Ioc _⟩

/-- C9: advancing the odometry with `dt = 0` leaves the pose exactly
unchanged and updates the stored velocity to the instantaneous body
velocity. -/
theorem C9_zero_dt (s : OdomState) (vx vy va : ℝ) :
    advanceOdom s vx vy va 0
      = { poseX := s.poseX, poseY := s.poseY, poseYaw := s.poseYaw
          velX := vx, velY := vy, velYaw := va } := by
  simp [advanceOdom]

/-- The observable operations of one `MecanumDrivePlugin::UpdateChild` call,
in the order the statements appear in the source (lines 212-268, with
`GetPositionCmd` inlined at its call site, line 222). -/
inductive StepEvent
  | readCommand
  | computeWheelTarget (w : Wheel)
  | readJointVelocity (w : Wheel)
  | computeForwardKinematics
  | advanceOdometry
  | setJointVelocity (w : Wheel)
  | setMaxForce (w : Wheel)
  | writePositionDataEvent
  | publishOdometryEvent
deriving DecidableEq, Repr

/-- The statement order of `MecanumDrivePlugin::UpdateChild`:
`GetPositionCmd()` (line 222: reads the command, lines 293-295, and computes
the four wheel targets, lines 303-306), then the four
`joints[...]->GetVelocity(0)` reads (lines 232-235), the forward kinematics
(lines 237-239), the odometry integration (lines 242-249), then — since
`enableMotors` was set to true in `GetPositionCmd` (line 300) — the four
`SetVelocity` calls (lines 253-256) and the four `SetMaxForce` calls
(lines 258-261), and finally `write_position_data()` and
`publish_odometry()` (lines 264-265). -/
def updateChildTrace : List StepEvent :=
  [.readCommand,
   .computeWheelTarget .frontLeft, .computeWheelTarget .frontRight,
   .computeWheelTarget .backLeft, .computeWheelTarget .backRight,
   .readJointVelocity .frontLeft, .readJointVelocity .frontRight,
   .readJointVelocity .backLeft, .readJointVelocity .backRight,
   .computeForwardKinematics,
   .advanceOdometry,
   .setJointVelocity .frontLeft, .setJointVelocity .frontRight,
   .setJointVelocity .backLeft, .setJointVelocity .backRight,
   .setMaxForce .frontLeft, .setMaxForce .frontRight,
   .setMaxForce .backLeft, .setMaxForce .backRight,
   .writePositionDataEvent,
   .publishOdometryEvent]

/-- Positions in `updateChildTrace` whose event satisfies `p`. -/
def indicesWhere (p : StepEvent → Bool) : List ℕ :=
  (List.range updateChildTrace.length).filter
    fun i => p (updateChildTrace.getD i .readCommand)

/-- Every event satisfying `p` occurs strictly before every event
satisfying `q` in `updateChildTrace`. -/
def allPrecede (p q : StepEvent → Bool) : Bool :=
  (indicesWhere p).all fun i => (indicesWhere q).all fun j => decide (i < j)

/-- Recognizer for the command read. -/
def isReadCommand : StepEvent → Bool
  | .readCommand => true
  | _ => false

/-- Recognizer for the inverse-kinematics wheel-target computations. -/
def isComputeWheelTarget : StepEvent → Bool
  | .computeWheelTarget _ => true
  | _ => false

/-- Recognizer for the joint-velocity read-backs. -/
def isReadJointVelocity : StepEvent → Bool
  | .readJointVelocity _ => true
  | _ => false

/-- Recognizer for the forward-kinematics computation. -/
def isComputeForwardKinematics : StepEvent → Bool
  | .computeForwardKinematics => true
  | _ => false

/-- Recognizer for the odometry integration. -/
def isAdvanceOdometry : StepEvent → Bool
  | .advanceOdometry => true
  | _ => false

/-- Recognizer for the joint actuation (`SetVelocity`) calls. -/
def isSetJointVelocity : StepEvent → Bool
  | .setJointVelocity _ => true
  | _ => false

/-- C5 counterexample: the claim that within a step the joint velocities are
read back only AFTER that step's actuation is false — in the actual
statement order the actuation does not precede the velocity reads; the read
of the front-left joint velocity (position 5) comes before its actuation
(position 11). -/
theorem C5_actuation_order_counterexample :
    allPrecede isSetJointVelocity isReadJointVelocity = false
      ∧ updateChildTrace.getD 5 .readCommand = .readJointVelocity .frontLeft
      ∧ updateChildTrace.getD 11 .readCommand = .setJointVelocity .frontLeft := by
  refine ⟨by decide, rfl, rfl⟩

/-- C5 amended: within one update step the order is — read the latest
command, compute the wheel targets via inverse kinematics, read back the
joints' velocities, run the forward kinematics, integrate the odometry, and
only then actuate the four joints; so the wheel velocities used for odometry
in a step are read BEFORE that step's actuation (they reflect the previous
step's actuation). -/
theorem C5_read_before_actuate_amended :
    (allPrecede isReadCommand isComputeWheelTarget
      && allPrecede isComputeWheelTarget isReadJointVelocity
      && allPrecede isReadJointVelocity isComputeForwardKinematics
      && allPrecede isComputeForwardKinematics isAdvanceOdometry
      && allPrecede isAdvanceOdometry isSetJointVelocity
      && allPrecede isReadJointVelocity isSetJointVelocity) = true := by
  decide

/-- A numeric parameter declaration: its configuration key and its default,
as given to `ParamT<float>` in the constructor. -/
structure NumParam where
  key : String
  dflt : ℚ
deriving DecidableEq, Repr

/-- Line 82 of the constructor:
`robotLength = new ParamT<float> ("robotLength", 0.25, 1);`. -/
def robotLengthParam : NumParam :=
  { key := "robotLength", dflt := 0.25 }

/-- Line 83 of the constructor:
`robotWidth = new ParamT<float> ("robotLength", 0.27, 1);` — note the key is
`"robotLength"`, not `"robotWidth"`. -/
def robotWidthParam : NumParam :=
  { key := "robotLength", dflt := 0.27 }

/-- Line 84 of the constructor:
`wheelDiamP = new ParamT<float> ("wheelDiameter", 0.15, 1);`. -/
def wheelDiamParam : NumParam :=
  { key := "wheelDiameter", dflt := 0.15 }

/-- Line 85 of the constructor:
`torqueP = new ParamT<float> ("torque", 10.0, 1);`. -/
def torqueParam : NumParam :=
  { key := "torque", dflt := 10 }

/-- `ParamT<float>::Load(node)`: take the value stored in the configuration
under the parameter's key, or the declared default when the key is absent. -/
def loadNum (cfg : String → Option ℚ) (p : NumParam) : ℚ :=
  (cfg p.key).getD p.dflt

/-- `ParamT<std::string>::Load(node)` for the joint-name parameters
(declared with default `""` at lines 78-81). -/
def loadStr (cfg : String → Option String) (key : String) : String :=
  (cfg key).getD ""

/-- The geometry loading of `LoadChild` (lines 123-126): each `Load(node)`
call fills the parameter from the configuration node. -/
def loadGeometry (cfg : String → Option ℚ) : Geom :=
  { robotLength := loadNum cfg robotLengthParam
    robotWidth := loadNum cfg robotWidthParam
    wheelDiam := loadNum cfg wheelDiamParam
    torque := loadNum cfg torqueParam }

/-- The fatal configuration errors `LoadChild` can raise via `gzthrow`
(lines 133-142): one per missing wheel joint, checked in this order. -/
inductive LoadError
  | missingFrontLeft
  | missingFrontRight
  | missingBackLeft
  | missingBackRight
deriving DecidableEq, Repr

/-- The result of a successful `LoadChild`: the loaded geometry and the four
acquired joint references. -/
structure Loaded (J : Type) where
  geom : Geom
  frontLeft : J
  frontRight : J
  backLeft : J
  backRight : J

/-- The configuration-relevant part of `MecanumDrivePlugin::LoadChild`
(lines 114-142): load the joint-name and geometry parameters, look up the
four wheel joints by name (`parent_->GetJoint`), and `gzthrow` — modelled as
`Except.error` — if any of the four references is missing, in the order
front-left, front-right, back-left, back-right. No other validation is
performed; in particular the geometry values are accepted as loaded. -/
def LoadChild (J : Type) (cfgNum : String → Option ℚ) (cfgStr : String → Option String)
    (getJoint : String → Option J) : Except LoadError (Loaded J) :=
  let geom := loadGeometry cfgNum
  match getJoint (loadStr cfgStr "frontLeftJoint"),
        getJoint (loadStr cfgStr "frontRightJoint"),
        getJoint (loadStr cfgStr "backLeftJoint"),
        getJoint (loadStr cfgStr "backRightJoint") with
  | none, _, _, _ => .error .missingFrontLeft
  | some _, none, _, _ => .error .missingFrontRight
  | some _, some _, none, _ => .error .missingBackLeft
  | some _, some _, some _, none => .error .missingBackRight
  | some fl, some fr, some bl, some br => .ok ⟨geom, fl, fr, bl, br⟩

/-- C6: a configuration whose geometry sums to `L = 0` is NOT rejected at
load time — `LoadChild` has no geometry validation at all. With
`robotLength = 0` in the configuration (both geometry parameters read the
duplicated key `"robotLength"`, so both load as `0`) and all four joints
present, loading succeeds and hands the runtime a geometry with
`l_total = length + width = 0`, the kinematics divisor. -/
theorem C6_zero_geometry_accepted :
    LoadChild Unit (fun k => if k = "robotLength" then some 0 else none)
        (fun k => some k) (fun _ => some ())
      = .ok ⟨Geom.mk 0 0 0.15 10, (), (), (), ()⟩
    ∧ l_total (Geom.mk 0 0 0.15 10) = 0 := by
  refine ⟨rfl, by norm_num [l_total]⟩

/-- C8: the robot-width parameter is declared under the key intended for the
robot-length parameter (both `"robotLength"`), with default `0.27` against
the length's `0.25`; hence every configuration that supplies a
`robotLength` entry loads both geometry values from that single entry, and
the kinematics divisor `L = length + width` equals twice the configured
length. -/
theorem C8_param_duplication (cfg : String → Option ℚ) (v : ℚ)
    (h : cfg "robotLength" = some v) :
    robotWidthParam.key = robotLengthParam.key
      ∧ robotLengthParam.dflt = 0.25
      ∧ robotWidthParam.dflt = 0.27
      ∧ (loadGeometry cfg).robotLength = v
      ∧ (loadGeometry cfg).robotWidth = v
      ∧ l_total (loadGeometry cfg) = 2 * v := by
  refine ⟨rfl, rfl, rfl, ?_, ?_, ?_⟩ <;>
    simp [loadGeometry, loadNum, l_total, robotLengthParam, robotWidthParam, h, two_mul]

/-- Witness for C8 at the configuration that maps `"robotLength"` to `7`. -/
theorem C8_param_duplication_witness :
    (fun k => if k = "robotLength" then some (7 : ℚ) else none) "robotLength" = some 7
      ∧ l_total (loadGeometry (fun k => if k = "robotLength" then some (7 : ℚ) else none))
          = 2 * 7 :=
  ⟨rfl,
    (C8_param_duplication (fun k => if k = "robotLength" then some (7 : ℚ) else none) 7
        rfl).2.2.2.2.2⟩

/-- C10: loading succeeds exactly when all four wheel joint references are
acquired; a missing reference makes `LoadChild` raise the fatal error
(`gzthrow`, modelled by `Except.error`), so the controller never starts, and
when all four are present the single pass succeeds — there is no retry
path. -/
theorem C10_joint_acquisition (J : Type) (cfgNum : String → Option ℚ)
    (cfgStr : String → Option String) (getJoint : String → Option J) :
    (∃ v, LoadChild J cfgNum cfgStr getJoint = .ok v)
      ↔ ((getJoint (loadStr cfgStr "frontLeftJoint")).isSome
          ∧ (getJoint (loadStr cfgStr "frontRightJoint")).isSome
          ∧ (getJoint (loadStr cfgStr "backLeftJoint")).isSome
          ∧ (getJoint (loadStr cfgStr "backRightJoint")).isSome) := by
  unfold LoadChild
  rcases getJoint (loadStr cfgStr "frontLeftJoint") with _ | fl <;>
    rcases getJoint (loadStr cfgStr "frontRightJoint") with _ | fr <;>
      rcases getJoint (loadStr cfgStr "backLeftJoint") with _ | bl <;>
        rcases getJoint (loadStr cfgStr "backRightJoint") with _ | br <;>
          simp
